import Mathlib

/-!
A verification development for the crisp-exchange concentrated-liquidity
swap engine (src/pool.rs and src/position.rs).

The Rust engine computes with IEEE-754 doubles; this embedding models the
f64 arithmetic by exact real arithmetic (ℝ), keeping every formula, branch
and evaluation order of the source.  u128/u64/u16 quantities are embedded
as ℕ, i32 ticks as ℤ.  Rust panics are modelled by Except/Option results,
and the unbounded `while` of get_swap_result by an explicit fuel parameter
(running out of fuel is a distinguished outcome, never identified with a
panic of the source).  The HashMap of collected fees is modelled by an
association list with insert-replaces-key semantics.
-/

namespace CrispExchange

noncomputable section

open Classical

/-- Modelled from the spec: the constant BASIS_POINT lives in the crate root
(`crate::BASIS_POINT`), which is not among the given source files.  The spec
fixes the tick basis as a constant slightly above 1, BASIS ≈ 1.0001 (one
basis point per tick). -/
def BASIS_POINT : ℝ := 1.0001

/-- Modelled from the spec: the INCORRECT_TOKEN error constant lives in the
crate root errors module, which is not among the given source files; the
spec only names the error kind. -/
def INCORRECT_TOKEN : String := "Incorrect token"

/-- position.rs: `tick_to_sqrt_price`, BASIS_POINT.powf(tick as f64 / 2.0). -/
def tick_to_sqrt_price (tick : ℤ) : ℝ := BASIS_POINT ^ ((tick : ℝ) / 2)

/-- position.rs: `sqrt_price_to_tick`, (2.0 * sqrt_price.log(BASIS_POINT)).floor() as i32. -/
def sqrt_price_to_tick (sqrt_price : ℝ) : ℤ := ⌊2 * Real.logb BASIS_POINT sqrt_price⌋

/-- position.rs: the private `min` helper. -/
def min (first second : ℝ) : ℝ := if first < second then first else second

/-- position.rs: the private `max` helper. -/
def max (first second : ℝ) : ℝ := if first > second then first else second

/-- position.rs: `get_liquidity_0`, x * sa * sb / (sb - sa). -/
def get_liquidity_0 (x sa sb : ℝ) : ℝ := x * sa * sb / (sb - sa)

/-- position.rs: `get_liquidity_1`, y / (sb - sa). -/
def get_liquidity_1 (y sa sb : ℝ) : ℝ := y / (sb - sa)

/-- position.rs: `calculate_x`, the token0 amount implied by liquidity `l` at
sqrt-price `sp` clamped to [sa, sb]. -/
def calculate_x (l sp sa sb : ℝ) : ℝ :=
  let sp := max (min sp sb) sa
  l * (sb - sp) / (sp * sb)

/-- position.rs: `calculate_y`, the token1 amount implied by liquidity `l` at
sqrt-price `sp` clamped to [sa, sb]. -/
def calculate_y (l sp sa sb : ℝ) : ℝ :=
  let sp := max (min sp sb) sa
  l * (sp - sa)

/-- position.rs: the `Position` struct. -/
structure Position where
  owner_id : String
  liquidity : ℝ
  token0_locked : ℝ
  token1_locked : ℝ
  tick_lower_bound_price : ℤ
  tick_upper_bound_price : ℤ
  sqrt_lower_bound_price : ℝ
  sqrt_upper_bound_price : ℝ
  is_active : Bool
  last_update : ℕ
  rewards_for_time : ℕ
  fees_earned_token0 : ℕ
  fees_earned_token1 : ℕ

/-- position.rs: the method `Position::is_active(&self, sqrt_price)` —
`self.sqrt_lower_bound_price <= sqrt_price && self.sqrt_upper_bound_price >= sqrt_price`.
(Named `is_active_at` here because the struct field `is_active` occupies the
method name.) -/
def Position.is_active_at (position : Position) (sqrt_price : ℝ) : Bool :=
  decide (position.sqrt_lower_bound_price ≤ sqrt_price ∧
          position.sqrt_upper_bound_price ≥ sqrt_price)

/-- position.rs: `Position::new`.  The constructor's `assert!` failures are
modelled as `Except.error` with the source's messages. -/
def Position.new (owner_id : String) (token0_liquidity token1_liquidity : Option ℕ)
    (lower_bound_price upper_bound_price sqrt_price : ℝ) : Except String Position :=
  if ¬(token0_liquidity.isSome ^^ token1_liquidity.isSome) then .error INCORRECT_TOKEN
  else if ¬(lower_bound_price < upper_bound_price) then
    .error ("assertion failed: lower_bound_price < upper_bound_price")
  else
    let tick_lower_bound_price := sqrt_price_to_tick (Real.sqrt lower_bound_price)
    let tick_upper_bound_price := sqrt_price_to_tick (Real.sqrt upper_bound_price)
    let sqrt_lower_bound_price := tick_to_sqrt_price tick_lower_bound_price
    let sqrt_upper_bound_price := tick_to_sqrt_price tick_upper_bound_price
    match token0_liquidity, token1_liquidity with
    | some v0, _ =>
      let x : ℝ := (v0 : ℝ)
      if ¬(x > 0) then .error ("token0 liqudity cannot be 0")
      else if ¬(sqrt_price ≤ sqrt_upper_bound_price) then
        .error ("send token1 liquidity instead of token0")
      else
        let liquidity :=
          if sqrt_lower_bound_price < sqrt_price ∧ sqrt_price < sqrt_upper_bound_price then
            get_liquidity_0 x sqrt_price sqrt_upper_bound_price
          else
            get_liquidity_0 x sqrt_lower_bound_price sqrt_upper_bound_price
        let y := calculate_y liquidity sqrt_price sqrt_lower_bound_price sqrt_upper_bound_price
        .ok { owner_id := owner_id, liquidity := liquidity, token0_locked := x,
              token1_locked := y,
              tick_lower_bound_price := tick_lower_bound_price,
              tick_upper_bound_price := tick_upper_bound_price,
              sqrt_lower_bound_price := sqrt_lower_bound_price,
              sqrt_upper_bound_price := sqrt_upper_bound_price,
              is_active := true, last_update := 0, rewards_for_time := 0,
              fees_earned_token0 := 0, fees_earned_token1 := 0 }
    | none, some v1 =>
      let y : ℝ := (v1 : ℝ)
      if ¬(y > 0) then .error ("token1 liqudity cannot be 0")
      else if ¬(sqrt_price ≥ sqrt_lower_bound_price) then
        .error ("send token0 liquidity instead of token1")
      else
        let liquidity :=
          if sqrt_lower_bound_price ≤ sqrt_price ∧ sqrt_price ≤ sqrt_upper_bound_price then
            get_liquidity_1 y sqrt_lower_bound_price sqrt_price
          else
            get_liquidity_1 y sqrt_lower_bound_price sqrt_upper_bound_price
        let x := calculate_x liquidity sqrt_price sqrt_lower_bound_price sqrt_upper_bound_price
        .ok { owner_id := owner_id, liquidity := liquidity, token0_locked := x,
              token1_locked := y,
              tick_lower_bound_price := tick_lower_bound_price,
              tick_upper_bound_price := tick_upper_bound_price,
              sqrt_lower_bound_price := sqrt_lower_bound_price,
              sqrt_upper_bound_price := sqrt_upper_bound_price,
              is_active := true, last_update := 0, rewards_for_time := 0,
              fees_earned_token0 := 0, fees_earned_token1 := 0 }
    | none, none => .error INCORRECT_TOKEN

/-- position.rs: `Position::refresh(&mut self, sqrt_price, current_timestamp)`.
Field order follows the source: the rewards update reads the old `is_active`
flag and the old `last_update`, then `is_active` and `last_update` are
reassigned. -/
def Position.refresh (position : Position) (sqrt_price : ℝ) (current_timestamp : ℕ) :
    Position :=
  { position with
    token0_locked := calculate_x position.liquidity sqrt_price
      position.sqrt_lower_bound_price position.sqrt_upper_bound_price,
    token1_locked := calculate_y position.liquidity sqrt_price
      position.sqrt_lower_bound_price position.sqrt_upper_bound_price,
    rewards_for_time :=
      if position.is_active then current_timestamp - position.last_update
      else position.rewards_for_time,
    is_active := position.is_active_at sqrt_price,
    last_update := current_timestamp }

/-- pool.rs: the `SwapDirection` enum. -/
inductive SwapDirection where
  | Return : SwapDirection
  | Expense : SwapDirection
deriving DecidableEq

/-- The fee map of a SwapResult: pool.rs uses `HashMap<AccountId, f64>`,
modelled as an association list where insert replaces the key's binding. -/
abbrev FeeMap := List (String × ℝ)

/-- HashMap.get: the value bound to `key`, if any. -/
def feeGet (map : FeeMap) (key : String) : Option ℝ :=
  (map.find? (fun kv => kv.1 == key)).map (fun kv => kv.2)

/-- HashMap.insert: bind `key` to `value`, replacing any previous binding. -/
def feeInsert (map : FeeMap) (key : String) (value : ℝ) : FeeMap :=
  (key, value) :: map.filter (fun kv => kv.1 != key)

/-- The source's `map.get(&owner).unwrap_or(&0.0)` idiom. -/
def feeGetD (map : FeeMap) (key : String) : ℝ := (feeGet map key).getD 0

/-- pool.rs: the `SwapResult` struct. -/
structure SwapResult where
  amount : ℝ
  new_liquidity : ℝ
  new_sqrt_price : ℝ
  collected_fees : FeeMap

/-- pool.rs: the `Pool` struct. -/
structure Pool where
  token0 : String
  token1 : String
  liquidity : ℝ
  sqrt_price : ℝ
  tick : ℤ
  positions : List Position
  protocol_fee : ℕ
  rewards : ℕ

/-- pool.rs: `Pool::new` — sqrt_price is the square root of the given price and
tick is derived from it. -/
def Pool.new (token0 token1 : String) (price : ℝ) (protocol_fee rewards : ℕ) : Pool :=
  { token0 := token0, token1 := token1, liquidity := 0,
    sqrt_price := Real.sqrt price,
    tick := sqrt_price_to_tick (Real.sqrt price),
    positions := [], protocol_fee := protocol_fee, rewards := rewards }

/-- pool.rs: `Pool::calculate_liquidity_within_tick` — sum of the liquidity of
the positions active at `sqrt_price`. -/
def Pool.calculate_liquidity_within_tick (pool : Pool) (sqrt_price : ℝ) : ℝ :=
  pool.positions.foldl
    (fun liquidity position =>
      if position.is_active_at sqrt_price then liquidity + position.liquidity
      else liquidity) 0

/-- pool.rs: `Pool::check_available_liquidity` — is there a position bound
strictly beyond `sqrt_price` in the direction the swap moves the price? -/
def Pool.check_available_liquidity (pool : Pool) (sqrt_price : ℝ) (token : String)
    (direction : SwapDirection) : Bool :=
  pool.positions.any (fun position =>
    if direction = SwapDirection.Expense ∧ token = pool.token1 ∨
       direction = SwapDirection.Return ∧ token = pool.token0 then
      decide (position.sqrt_upper_bound_price < sqrt_price)
    else
      decide (position.sqrt_lower_bound_price > sqrt_price))

/-- pool.rs: `Pool::collect_fees` — for every position active at `sqrt_price`,
add its pro-rata share of `amount` to its owner's entry of the map. -/
def Pool.collect_fees (pool : Pool) (liquidity sqrt_price amount : ℝ)
    (map : FeeMap) : FeeMap :=
  pool.positions.foldl
    (fun map position =>
      if position.is_active_at sqrt_price then
        let share := position.liquidity / liquidity * amount * ((pool.rewards : ℝ) / 10000)
        let old_share := feeGetD map position.owner_id
        feeInsert map position.owner_id (share + old_share)
      else map) map

/-- The state the tick-walk step functions hand back: pool.rs passes `tick`,
`sqrt_price` and `remaining` by &mut reference and returns the step amount. -/
structure StepResult where
  tick : ℤ
  sqrt_price : ℝ
  remaining : ℝ
  amount : ℝ

/-- pool.rs: `Pool::get_amount_in_within_tick` (the Expense step). -/
def Pool.get_amount_in_within_tick (pool : Pool) (tick : ℤ) (sqrt_price : ℝ)
    (token_out : String) (remaining liquidity : ℝ) : StepResult :=
  if token_out = pool.token1 then
    let new_tick := tick - 1
    let new_sqrt_price := tick_to_sqrt_price new_tick
    let amount_in := (1 / new_sqrt_price - 1 / sqrt_price) * liquidity
    let amount_out := (new_sqrt_price - sqrt_price) * liquidity
    if -amount_out > remaining then
      let delta_sqrt_price := remaining / liquidity
      let new_sqrt_price := sqrt_price - delta_sqrt_price
      let amount_in := (1 / new_sqrt_price - 1 / sqrt_price) * liquidity
      { tick := tick, sqrt_price := new_sqrt_price, remaining := 0, amount := |amount_in| }
    else
      { tick := tick - 1, sqrt_price := new_sqrt_price,
        remaining := remaining + amount_out, amount := |amount_in| }
  else
    let new_tick := tick + 1
    let new_sqrt_price := tick_to_sqrt_price new_tick
    let amount_in := (new_sqrt_price - sqrt_price) * liquidity
    let amount_out := (1 / new_sqrt_price - 1 / sqrt_price) * liquidity
    if -amount_out > remaining then
      let delta_reversed_sqrt_price := remaining / liquidity
      let new_sqrt_price := sqrt_price / (-delta_reversed_sqrt_price * sqrt_price + 1)
      let amount_in := (new_sqrt_price - sqrt_price) * liquidity
      { tick := tick, sqrt_price := new_sqrt_price, remaining := 0, amount := |amount_in| }
    else
      { tick := tick + 1, sqrt_price := new_sqrt_price,
        remaining := remaining + amount_out, amount := |amount_in| }

/-- pool.rs: `Pool::get_amount_out_within_tick` (the Return step). -/
def Pool.get_amount_out_within_tick (pool : Pool) (tick : ℤ) (sqrt_price : ℝ)
    (token_in : String) (remaining liquidity : ℝ) : StepResult :=
  if token_in = pool.token1 then
    let new_tick := tick + 1
    let new_sqrt_price := tick_to_sqrt_price new_tick
    let amount_out := (1 / new_sqrt_price - 1 / sqrt_price) * liquidity
    let amount_in := (new_sqrt_price - sqrt_price) * liquidity
    if amount_in > remaining then
      let delta_sqrt_price := remaining / liquidity
      let new_sqrt_price := sqrt_price + delta_sqrt_price
      let amount_out := (1 / new_sqrt_price - 1 / sqrt_price) * liquidity
      { tick := tick, sqrt_price := new_sqrt_price, remaining := 0, amount := |amount_out| }
    else
      { tick := tick + 1, sqrt_price := new_sqrt_price,
        remaining := remaining - amount_in, amount := |amount_out| }
  else
    let new_tick := tick - 1
    let new_sqrt_price := tick_to_sqrt_price new_tick
    let amount_out := (new_sqrt_price - sqrt_price) * liquidity
    let amount_in := (1 / new_sqrt_price - 1 / sqrt_price) * liquidity
    if amount_in > remaining then
      let delta_reversed_sqrt_price := remaining / liquidity
      let new_sqrt_price := sqrt_price / (-delta_reversed_sqrt_price * sqrt_price + 1)
      let amount_out := (new_sqrt_price - sqrt_price) * liquidity
      { tick := tick, sqrt_price := new_sqrt_price, remaining := 0, amount := |amount_out| }
    else
      { tick := tick - 1, sqrt_price := new_sqrt_price,
        remaining := remaining - amount_in, amount := |amount_out| }

/-- The ways a swap quote can fail: the source's panic, or fuel exhaustion of
the embedded while-loop (which has no counterpart in the source). -/
inductive SwapError where
  | insufficientLiquidity : SwapError
  | outOfFuel : SwapError
deriving DecidableEq

/-- The mutable cursor of get_swap_result's while-loop. -/
structure SwapCursor where
  tick : ℤ
  sqrt_price : ℝ
  remaining : ℝ
  collected : ℝ
  collected_fees : FeeMap

/-- One iteration of the while-loop of pool.rs `Pool::get_swap_result`:
compute the tick liquidity at the cursor price, panic if the pool is dry and
no position lies further along, perform the step for the direction, then
attribute fees — note the source calls `collect_fees` with the tick liquidity
computed before the step but with the cursor price already advanced by it. -/
def Pool.swap_iteration (pool : Pool) (token : String) (direction : SwapDirection)
    (s : SwapCursor) : Except SwapError SwapCursor :=
  let liquidity := pool.calculate_liquidity_within_tick s.sqrt_price
  if liquidity = 0 ∧ pool.check_available_liquidity s.sqrt_price token direction = false then
    .error .insufficientLiquidity
  else
    let step :=
      match direction with
      | .Expense => pool.get_amount_in_within_tick s.tick s.sqrt_price token s.remaining liquidity
      | .Return => pool.get_amount_out_within_tick s.tick s.sqrt_price token s.remaining liquidity
    .ok { tick := step.tick, sqrt_price := step.sqrt_price, remaining := step.remaining,
          collected := s.collected + step.amount,
          collected_fees := pool.collect_fees liquidity step.sqrt_price step.amount
            s.collected_fees }

/-- The while-loop of `Pool::get_swap_result`, with explicit fuel. -/
def Pool.swap_loop (pool : Pool) (token : String) (direction : SwapDirection) :
    ℕ → SwapCursor → Except SwapError SwapCursor
  | fuel, s =>
    if s.remaining > 0 then
      match fuel with
      | 0 => .error .outOfFuel
      | fuel + 1 =>
        match pool.swap_iteration token direction s with
        | .error e => .error e
        | .ok s2 => pool.swap_loop token direction fuel s2
    else .ok s

/-- pool.rs: `Pool::get_swap_result(&self, token, amount, direction)` — the
dry-run quote.  It reads the pool immutably; the cursor starts from the
pool's tick and sqrt_price with `remaining = amount as f64`. -/
def Pool.get_swap_result (pool : Pool) (token : String) (amount : ℕ)
    (direction : SwapDirection) (fuel : ℕ) : Except SwapError SwapResult :=
  let s0 : SwapCursor :=
    { tick := pool.tick, sqrt_price := pool.sqrt_price, remaining := (amount : ℝ),
      collected := 0, collected_fees := [] }
  match pool.swap_loop token direction fuel s0 with
  | .error e => .error e
  | .ok s =>
    .ok { amount := s.collected,
          new_liquidity := pool.calculate_liquidity_within_tick s.sqrt_price,
          new_sqrt_price := s.sqrt_price,
          collected_fees := s.collected_fees }

/-- pool.rs: `Pool::get_sqrt_price`. -/
def Pool.get_sqrt_price (pool : Pool) : ℝ := pool.sqrt_price

/-- pool.rs: `Pool::refresh_liquidity` — recompute the cached aggregate. -/
def Pool.refresh_liquidity (pool : Pool) : Pool :=
  { pool with liquidity := pool.calculate_liquidity_within_tick pool.sqrt_price }

/-- pool.rs: `Pool::refresh_positions(current_timestamp)`. -/
def Pool.refresh_positions (pool : Pool) (current_timestamp : ℕ) : Pool :=
  { pool with positions :=
      pool.positions.map (fun position => position.refresh pool.sqrt_price current_timestamp) }

/-- pool.rs: `Pool::open_position` — add to the cache when active, then push. -/
def Pool.open_position (pool : Pool) (position : Position) : Pool :=
  { pool with
    liquidity :=
      if position.is_active_at pool.sqrt_price then pool.liquidity + position.liquidity
      else pool.liquidity,
    positions := pool.positions ++ [position] }

/-- pool.rs: `Pool::close_position(id)` — indexing `self.positions[id]` panics
when `id` is out of range, modelled by `none`; otherwise subtract the cache
when active and remove the position at `id`. -/
def Pool.close_position (pool : Pool) (id : ℕ) : Option Pool :=
  match pool.positions[id]? with
  | none => none
  | some position =>
    some { pool with
      liquidity :=
        if position.is_active_at pool.sqrt_price then pool.liquidity - position.liquidity
        else pool.liquidity,
      positions := pool.positions.eraseIdx id }

/-- pool.rs: `Pool::apply_swap_result` — commit the dry-run: write liquidity
and sqrt_price, nothing else (in particular not tick). -/
def Pool.apply_swap_result (pool : Pool) (swap_result : SwapResult) : Pool :=
  { pool with
    liquidity := swap_result.new_liquidity,
    sqrt_price := swap_result.new_sqrt_price }

/-! ### Basic facts about the embedded primitives -/

theorem one_lt_BASIS_POINT : (1 : ℝ) < BASIS_POINT := by
  unfold BASIS_POINT; norm_num

theorem BASIS_POINT_pos : (0 : ℝ) < BASIS_POINT :=
  lt_trans one_pos one_lt_BASIS_POINT

theorem BASIS_POINT_ne_one : BASIS_POINT ≠ 1 :=
  ne_of_gt one_lt_BASIS_POINT

theorem is_active_at_iff (position : Position) (sqrt_price : ℝ) :
    position.is_active_at sqrt_price = true ↔
      position.sqrt_lower_bound_price ≤ sqrt_price ∧
      position.sqrt_upper_bound_price ≥ sqrt_price := by
  simp [Position.is_active_at]

theorem is_active_at_eq_false_iff (position : Position) (sqrt_price : ℝ) :
    position.is_active_at sqrt_price = false ↔
      ¬(position.sqrt_lower_bound_price ≤ sqrt_price ∧
        position.sqrt_upper_bound_price ≥ sqrt_price) := by
  simp [Position.is_active_at]

theorem tick_to_sqrt_price_zero : tick_to_sqrt_price 0 = 1 := by
  simp [tick_to_sqrt_price]

theorem tick_to_sqrt_price_one : tick_to_sqrt_price 1 = Real.sqrt BASIS_POINT := by
  rw [tick_to_sqrt_price, Real.sqrt_eq_rpow]
  norm_num

theorem tick_to_sqrt_price_two : tick_to_sqrt_price 2 = BASIS_POINT := by
  have h : ((2 : ℤ) : ℝ) / 2 = 1 := by norm_num
  rw [tick_to_sqrt_price, h, Real.rpow_one]

theorem tick_to_sqrt_price_le_one_of_nonpos (tick : ℤ) (h : tick ≤ 0) :
    tick_to_sqrt_price tick ≤ 1 := by
  apply Real.rpow_le_one_of_one_le_of_nonpos (le_of_lt one_lt_BASIS_POINT)
  have : (tick : ℝ) ≤ 0 := by exact_mod_cast h
  linarith

theorem one_le_tick_to_sqrt_price_of_nonneg (tick : ℤ) (h : 0 ≤ tick) :
    1 ≤ tick_to_sqrt_price tick := by
  apply Real.one_le_rpow (le_of_lt one_lt_BASIS_POINT)
  have : (0 : ℝ) ≤ (tick : ℝ) := by exact_mod_cast h
  linarith

theorem tick_to_sqrt_price_le_tick_to_sqrt_price (a b : ℤ) (h : a ≤ b) :
    tick_to_sqrt_price a ≤ tick_to_sqrt_price b := by
  apply Real.rpow_le_rpow_of_exponent_le (le_of_lt one_lt_BASIS_POINT)
  have : (a : ℝ) ≤ (b : ℝ) := by exact_mod_cast h
  linarith

theorem sqrt_BASIS_POINT_lt_BASIS_POINT :
    Real.sqrt BASIS_POINT < BASIS_POINT := by
  rw [Real.sqrt_lt' BASIS_POINT_pos]
  nlinarith [one_lt_BASIS_POINT, BASIS_POINT_pos]

theorem one_le_sqrt_BASIS_POINT : 1 ≤ Real.sqrt BASIS_POINT := by
  rw [Real.le_sqrt (by norm_num) (le_of_lt BASIS_POINT_pos)]
  nlinarith [one_lt_BASIS_POINT]

/-! ### The tick liquidity as a sum over the active positions -/

theorem liquidity_foldl_eq_sum (sqrt_price : ℝ) (positions : List Position) (init : ℝ) :
    positions.foldl
      (fun liquidity position =>
        if position.is_active_at sqrt_price then liquidity + position.liquidity
        else liquidity) init
    = init + ((positions.filter (fun position => position.is_active_at sqrt_price)).map
        (fun position => position.liquidity)).sum := by
  induction positions generalizing init with
  | nil => simp
  | cons head tail ih =>
    cases h : head.is_active_at sqrt_price with
    | false => simp [List.foldl_cons, h, ih]
    | true => simp [List.foldl_cons, h, ih]; ring

theorem calculate_liquidity_within_tick_eq_sum (pool : Pool) (sqrt_price : ℝ) :
    pool.calculate_liquidity_within_tick sqrt_price
    = ((pool.positions.filter (fun position => position.is_active_at sqrt_price)).map
        (fun position => position.liquidity)).sum := by
  unfold Pool.calculate_liquidity_within_tick
  rw [liquidity_foldl_eq_sum]
  ring

/-! ### Lookup facts for the fee map -/

theorem feeGetD_nil (key : String) : feeGetD [] key = 0 := rfl

theorem feeGetD_insert_self (map : FeeMap) (key : String) (value : ℝ) :
    feeGetD (feeInsert map key value) key = value := by
  simp [feeGetD, feeGet, feeInsert]

theorem find?_filter_ne (map : FeeMap) (key other : String) (h : key ≠ other) :
    (map.filter (fun kv => kv.1 != key)).find? (fun kv => kv.1 == other)
      = map.find? (fun kv => kv.1 == other) := by
  induction map with
  | nil => rfl
  | cons head tail ih =>
    by_cases hk : head.1 = key
    · have h1 : (head.1 != key) = false := by simp [hk]
      have h2 : (head.1 == other) = false := by
        simp only [beq_eq_false_iff_ne, ne_eq]
        rw [hk]; exact h
      simp [List.filter_cons, h1, List.find?_cons, h2, ih]
    · have h1 : (head.1 != key) = true := by simp [hk]
      cases ho : (head.1 == other) with
      | true => simp [List.filter_cons, h1, List.find?_cons, ho]
      | false => simp [List.filter_cons, h1, List.find?_cons, ho, ih]

theorem feeGetD_insert_ne (map : FeeMap) (key other : String) (value : ℝ)
    (h : key ≠ other) :
    feeGetD (feeInsert map key value) other = feeGetD map other := by
  have hko : (key == other) = false := by simp [h]
  simp [feeGetD, feeGet, feeInsert, List.find?_cons, hko, find?_filter_ne map key other h]

/-- The lookup of an owner after the fee-attribution fold: the prior value
plus the shares of exactly the positions that are active at `sqrt_price` and
belong to that owner. -/
theorem collect_foldl_getD (sqrt_price : ℝ) (share : Position → ℝ)
    (positions : List Position) (map : FeeMap) (key : String) :
    feeGetD (positions.foldl
      (fun map position =>
        if position.is_active_at sqrt_price then
          feeInsert map position.owner_id (share position + feeGetD map position.owner_id)
        else map) map) key
    = feeGetD map key +
      ((positions.filter (fun position =>
          position.is_active_at sqrt_price && position.owner_id == key)).map share).sum := by
  induction positions generalizing map with
  | nil => simp
  | cons head tail ih =>
    cases h : head.is_active_at sqrt_price with
    | false => simp [List.foldl_cons, h, ih]
    | true =>
      by_cases hk : head.owner_id = key
      · have hbeq : (head.owner_id == key) = true := by simp [hk]
        rw [List.foldl_cons, if_pos h, ih]
        rw [hk, feeGetD_insert_self]
        simp [List.filter_cons, h, hbeq]
        ring
      · have hbeq : (head.owner_id == key) = false := by simp [hk]
        rw [List.foldl_cons, if_pos h, ih]
        rw [feeGetD_insert_ne _ _ _ _ hk]
        simp [List.filter_cons, h, hbeq]

theorem collect_fees_getD (pool : Pool) (liquidity sqrt_price amount : ℝ)
    (map : FeeMap) (key : String) :
    feeGetD (pool.collect_fees liquidity sqrt_price amount map) key
    = feeGetD map key +
      ((pool.positions.filter (fun position =>
          position.is_active_at sqrt_price && position.owner_id == key)).map
        (fun position =>
          position.liquidity / liquidity * amount * ((pool.rewards : ℝ) / 10000))).sum := by
  unfold Pool.collect_fees
  exact collect_foldl_getD sqrt_price
    (fun position => position.liquidity / liquidity * amount * ((pool.rewards : ℝ) / 10000))
    pool.positions map key

/-! ### Unfolding the swap loop -/

theorem swap_loop_of_nonpos (pool : Pool) (token : String) (direction : SwapDirection)
    (fuel : ℕ) (s : SwapCursor) (h : ¬ s.remaining > 0) :
    pool.swap_loop token direction fuel s = .ok s := by
  unfold Pool.swap_loop
  rw [if_neg h]

theorem swap_loop_succ_of_pos (pool : Pool) (token : String) (direction : SwapDirection)
    (fuel : ℕ) (s : SwapCursor) (h : s.remaining > 0) :
    pool.swap_loop token direction (fuel + 1) s
    = match pool.swap_iteration token direction s with
      | .error e => .error e
      | .ok s2 => pool.swap_loop token direction fuel s2 := by
  conv_lhs => rw [Pool.swap_loop]
  rw [if_pos h]

/-! ### Claim theorems -/

/-- C7: `apply_swap_result(r)` writes `liquidity := r.new_liquidity` and
`sqrt_price := r.new_sqrt_price` and leaves every other pool field unchanged:
tick, token0, token1, the positions sequence, protocol_fee and rewards. -/
theorem apply_swap_result_frame (pool : Pool) (swap_result : SwapResult) :
    (pool.apply_swap_result swap_result).liquidity = swap_result.new_liquidity ∧
    (pool.apply_swap_result swap_result).sqrt_price = swap_result.new_sqrt_price ∧
    (pool.apply_swap_result swap_result).tick = pool.tick ∧
    (pool.apply_swap_result swap_result).token0 = pool.token0 ∧
    (pool.apply_swap_result swap_result).token1 = pool.token1 ∧
    (pool.apply_swap_result swap_result).positions = pool.positions ∧
    (pool.apply_swap_result swap_result).protocol_fee = pool.protocol_fee ∧
    (pool.apply_swap_result swap_result).rewards = pool.rewards :=
  ⟨rfl, rfl, rfl, rfl, rfl, rfl, rfl, rfl⟩

/-- C2 (amended): `refresh(sqrt_price, now)` recomputes both locked amounts
through the amount helpers, SETS `rewards_for_time` to `now − last_update`
when the position was active before the call (it does not accumulate onto the
previous value), updates `is_active` to `p_a ≤ sqrt_price ≤ p_b`, and sets
`last_update := now`. -/
theorem refresh_spec (position : Position) (sqrt_price : ℝ) (now : ℕ) :
    (position.refresh sqrt_price now).token0_locked
      = calculate_x position.liquidity sqrt_price position.sqrt_lower_bound_price
          position.sqrt_upper_bound_price ∧
    (position.refresh sqrt_price now).token1_locked
      = calculate_y position.liquidity sqrt_price position.sqrt_lower_bound_price
          position.sqrt_upper_bound_price ∧
    (position.refresh sqrt_price now).rewards_for_time
      = (if position.is_active then now - position.last_update
         else position.rewards_for_time) ∧
    ((position.refresh sqrt_price now).is_active = true ↔
      (position.sqrt_lower_bound_price ≤ sqrt_price ∧
       sqrt_price ≤ position.sqrt_upper_bound_price)) ∧
    (position.refresh sqrt_price now).last_update = now := by
  refine ⟨rfl, rfl, rfl, ?_, rfl⟩
  rw [show (position.refresh sqrt_price now).is_active
        = position.is_active_at sqrt_price from rfl, is_active_at_iff]

/-- A position that was active, with an accumulated `rewards_for_time` of 5
and `last_update = 0`: refreshing at timestamp 3 shows the overwrite. -/
def refresh_example_position : Position :=
  { owner_id := ("o"), liquidity := 0, token0_locked := 0, token1_locked := 0,
    tick_lower_bound_price := 0, tick_upper_bound_price := 0,
    sqrt_lower_bound_price := 0, sqrt_upper_bound_price := 2,
    is_active := true, last_update := 0, rewards_for_time := 5,
    fees_earned_token0 := 0, fees_earned_token1 := 0 }

/-- C2 (counterexample): for a previously-active position with
`rewards_for_time = 5` and `last_update = 0`, refreshing at `now = 3` leaves
`rewards_for_time = 3`, not the accumulated `5 + (3 − 0) = 8` the claim
requires. -/
theorem refresh_rewards_overwrite_counterexample :
    (refresh_example_position.refresh 1 3).rewards_for_time = 3 ∧
    refresh_example_position.rewards_for_time +
      (3 - refresh_example_position.last_update) = 8 ∧
    (refresh_example_position.refresh 1 3).rewards_for_time ≠
      refresh_example_position.rewards_for_time +
        (3 - refresh_example_position.last_update) := by
  refine ⟨rfl, rfl, ?_⟩
  intro h
  simp [Position.refresh, refresh_example_position] at h

/-- C5: for every integer tick `t`,
`sqrt_price_to_tick (tick_to_sqrt_price t) = t` (proved for all of ℤ, which
covers the representable range). -/
theorem tick_round_trip (t : ℤ) :
    sqrt_price_to_tick (tick_to_sqrt_price t) = t := by
  unfold sqrt_price_to_tick tick_to_sqrt_price
  rw [Real.logb_rpow BASIS_POINT_pos BASIS_POINT_ne_one]
  have h : 2 * ((t : ℝ) / 2) = (t : ℝ) := by ring
  rw [h, Int.floor_intCast]

/-- C10: `close_position(id)` panics (here: `none`) exactly when `id` is out
of range; in range it removes exactly the position at index `id`, the later
positions shift down by one, and the count drops by one. -/
theorem close_position_spec (pool : Pool) (id : ℕ) :
    (pool.close_position id = none ↔ pool.positions.length ≤ id) ∧
    ((pool.close_position id).map (fun p => p.positions)
      = if id < pool.positions.length
        then some (pool.positions.take id ++ pool.positions.drop (id + 1))
        else none) ∧
    ((pool.close_position id).map (fun p => p.positions.length)
      = if id < pool.positions.length then some (pool.positions.length - 1)
        else none) := by
  by_cases h : id < pool.positions.length
  · have hget : pool.positions[id]? = some pool.positions[id] :=
      List.getElem?_eq_getElem h
    refine ⟨?_, ?_, ?_⟩
    · simp only [Pool.close_position, hget]
      constructor
      · intro hc; simp at hc
      · intro hc; omega
    · simp only [Pool.close_position, hget, if_pos h, Option.map_some']
      rw [List.eraseIdx_eq_take_drop_succ]
    · simp only [Pool.close_position, hget, if_pos h, Option.map_some']
      rw [List.length_eraseIdx_of_lt h]
  · have hge : pool.positions.length ≤ id := le_of_not_lt h
    have hget : pool.positions[id]? = none := List.getElem?_eq_none hge
    simp only [Pool.close_position, hget, if_neg h]
    refine ⟨by simp [hge], by simp, by simp⟩

/-- C6: opening a position that is active at the pool's current sqrt-price and
then closing it at its own index restores the cached `liquidity` exactly. -/
theorem open_close_restores_liquidity (pool : Pool) (position : Position)
    (h : position.is_active_at pool.sqrt_price = true) :
    ((pool.open_position position).close_position pool.positions.length).map
      (fun p => p.liquidity) = some pool.liquidity := by
  have hget : (pool.open_position position).positions[pool.positions.length]?
      = some position := by
    show (pool.positions ++ [position])[pool.positions.length]? = some position
    exact List.getElem?_concat_length _ _
  have hsp : (pool.open_position position).sqrt_price = pool.sqrt_price := rfl
  simp only [Pool.close_position, hget, hsp, h, if_pos, Option.map_some']
  have hliq : (pool.open_position position).liquidity
      = pool.liquidity + position.liquidity := by
    simp [Pool.open_position, h]
  simp [hliq]

/-- A pool and an active position used to instantiate the open/close
round-trip at a concrete input. -/
def frame_example_position : Position :=
  { owner_id := ("w"), liquidity := 5, token0_locked := 0, token1_locked := 0,
    tick_lower_bound_price := 0, tick_upper_bound_price := 0,
    sqrt_lower_bound_price := 0, sqrt_upper_bound_price := 2,
    is_active := true, last_update := 0, rewards_for_time := 0,
    fees_earned_token0 := 0, fees_earned_token1 := 0 }

/-- A concrete pool at sqrt-price 1 holding no positions. -/
def frame_example_pool : Pool :=
  { token0 := ("t0"), token1 := ("t1"), liquidity := 3, sqrt_price := 1,
    tick := 0, positions := [], protocol_fee := 0, rewards := 0 }

/-- C6 (witness): the round-trip at a concrete pool and position. -/
theorem open_close_restores_liquidity_witness :
    ((frame_example_pool.open_position frame_example_position).close_position
        frame_example_pool.positions.length).map (fun p => p.liquidity)
      = some frame_example_pool.liquidity :=
  open_close_restores_liquidity frame_example_pool frame_example_position
    (by rw [is_active_at_iff]
        refine ⟨?_, ?_⟩ <;> norm_num [frame_example_position, frame_example_pool])

/-- C9: a swap quote for amount 0 never fails, whatever the token, the
direction, the fuel and the pool (in particular an empty pool): it returns
amount 0, the sum of the liquidity of the positions active at the current
sqrt-price, the unchanged sqrt-price, and an empty fee map. -/
theorem swap_zero_amount (pool : Pool) (token : String) (direction : SwapDirection)
    (fuel : ℕ) :
    pool.get_swap_result token 0 direction fuel
    = .ok { amount := 0,
            new_liquidity := ((pool.positions.filter
                (fun position => position.is_active_at pool.sqrt_price)).map
              (fun position => position.liquidity)).sum,
            new_sqrt_price := pool.sqrt_price,
            collected_fees := [] } := by
  simp only [Pool.get_swap_result]
  rw [swap_loop_of_nonpos]
  · simp [calculate_liquidity_within_tick_eq_sum]
  · norm_num

/-- C4: on a pool with no positions, any swap quote with a positive amount
fails with the INSUFFICIENT_LIQUIDITY panic, for either token and either
direction (and, the quote being a read-only function of the pool, it mutates
nothing). -/
theorem empty_pool_swap_insufficient_liquidity (pool : Pool) (token : String)
    (amount : ℕ) (direction : SwapDirection) (fuel : ℕ)
    (hpos : pool.positions = []) (hamt : 0 < amount) :
    pool.get_swap_result token amount direction (fuel + 1)
      = .error .insufficientLiquidity := by
  simp only [Pool.get_swap_result]
  rw [swap_loop_succ_of_pos]
  · have hL : pool.calculate_liquidity_within_tick pool.sqrt_price = 0 := by
      simp [Pool.calculate_liquidity_within_tick, hpos]
    have hC : pool.check_available_liquidity pool.sqrt_price token direction = false := by
      simp [Pool.check_available_liquidity, hpos]
    simp [Pool.swap_iteration, hL, hC]
  · show (amount : ℝ) > 0
    exact_mod_cast hamt

/-- C4 (witness): the empty-pool panic at a concrete pool and request. -/
theorem empty_pool_swap_insufficient_liquidity_witness :
    (Pool.new ("t0") ("t1") 100 0 0).get_swap_result ("t1") 1000 .Return (0 + 1)
      = .error .insufficientLiquidity :=
  empty_pool_swap_insufficient_liquidity (Pool.new ("t0") ("t1") 100 0 0)
    ("t1") 1000 .Return 0 rfl (by norm_num)

/-- C8: `Position::new` called with a token0 amount and no token1 amount,
against a well-formed price range: it succeeds exactly when `x > 0` and
`sqrt_price ≤ p_b` (the tick-snapped upper bound), the resulting liquidity is
`x·p·p_b/(p_b − p)` when `p_a < p < p_b` strictly and `x·p_a·p_b/(p_b − p_a)`
otherwise, and `token1_locked` is the y amount consistent with that liquidity
at the clamped sqrt-price. -/
theorem position_new_token0_run (owner : String) (x : ℕ)
    (lower upper sqrt_price : ℝ) (hlu : lower < upper) :
    Position.new owner (some x) none lower upper sqrt_price
    = if ¬(((x : ℕ) : ℝ) > 0) then .error ("token0 liqudity cannot be 0")
      else if ¬(sqrt_price ≤ tick_to_sqrt_price (sqrt_price_to_tick (Real.sqrt upper))) then
        .error ("send token1 liquidity instead of token0")
      else
        .ok { owner_id := owner,
              liquidity :=
                if tick_to_sqrt_price (sqrt_price_to_tick (Real.sqrt lower)) < sqrt_price ∧
                    sqrt_price < tick_to_sqrt_price (sqrt_price_to_tick (Real.sqrt upper)) then
                  get_liquidity_0 ((x : ℕ) : ℝ) sqrt_price
                    (tick_to_sqrt_price (sqrt_price_to_tick (Real.sqrt upper)))
                else
                  get_liquidity_0 ((x : ℕ) : ℝ)
                    (tick_to_sqrt_price (sqrt_price_to_tick (Real.sqrt lower)))
                    (tick_to_sqrt_price (sqrt_price_to_tick (Real.sqrt upper))),
              token0_locked := ((x : ℕ) : ℝ),
              token1_locked := calculate_y
                (if tick_to_sqrt_price (sqrt_price_to_tick (Real.sqrt lower)) < sqrt_price ∧
                    sqrt_price < tick_to_sqrt_price (sqrt_price_to_tick (Real.sqrt upper)) then
                  get_liquidity_0 ((x : ℕ) : ℝ) sqrt_price
                    (tick_to_sqrt_price (sqrt_price_to_tick (Real.sqrt upper)))
                else
                  get_liquidity_0 ((x : ℕ) : ℝ)
                    (tick_to_sqrt_price (sqrt_price_to_tick (Real.sqrt lower)))
                    (tick_to_sqrt_price (sqrt_price_to_tick (Real.sqrt upper))))
                sqrt_price (tick_to_sqrt_price (sqrt_price_to_tick (Real.sqrt lower)))
                (tick_to_sqrt_price (sqrt_price_to_tick (Real.sqrt upper))),
              tick_lower_bound_price := sqrt_price_to_tick (Real.sqrt lower),
              tick_upper_bound_price := sqrt_price_to_tick (Real.sqrt upper),
              sqrt_lower_bound_price := tick_to_sqrt_price (sqrt_price_to_tick (Real.sqrt lower)),
              sqrt_upper_bound_price := tick_to_sqrt_price (sqrt_price_to_tick (Real.sqrt upper)),
              is_active := true, last_update := 0, rewards_for_time := 0,
              fees_earned_token0 := 0, fees_earned_token1 := 0 } := by
  have hxor : ¬¬((some x).isSome ^^ (none : Option ℕ).isSome) = true := by simp
  unfold Position.new
  rw [if_neg hxor, if_neg (not_not_intro hlu)]

theorem position_new_token0_spec (owner : String) (x : ℕ)
    (lower upper sqrt_price : ℝ) (hlu : lower < upper) :
    ((Position.new owner (some x) none lower upper sqrt_price).isOk = true ↔
      0 < x ∧
        sqrt_price ≤ tick_to_sqrt_price (sqrt_price_to_tick (Real.sqrt upper))) ∧
    (∀ position,
      Position.new owner (some x) none lower upper sqrt_price = .ok position →
      (position.liquidity =
        (if tick_to_sqrt_price (sqrt_price_to_tick (Real.sqrt lower)) < sqrt_price ∧
            sqrt_price < tick_to_sqrt_price (sqrt_price_to_tick (Real.sqrt upper)) then
          (x : ℝ) * sqrt_price * tick_to_sqrt_price (sqrt_price_to_tick (Real.sqrt upper)) /
            (tick_to_sqrt_price (sqrt_price_to_tick (Real.sqrt upper)) - sqrt_price)
        else
          (x : ℝ) * tick_to_sqrt_price (sqrt_price_to_tick (Real.sqrt lower)) *
              tick_to_sqrt_price (sqrt_price_to_tick (Real.sqrt upper)) /
            (tick_to_sqrt_price (sqrt_price_to_tick (Real.sqrt upper)) -
              tick_to_sqrt_price (sqrt_price_to_tick (Real.sqrt lower))))) ∧
      position.token0_locked = (x : ℝ) ∧
      position.token1_locked = calculate_y position.liquidity sqrt_price
        (tick_to_sqrt_price (sqrt_price_to_tick (Real.sqrt lower)))
        (tick_to_sqrt_price (sqrt_price_to_tick (Real.sqrt upper))) ∧
      position.sqrt_lower_bound_price
        = tick_to_sqrt_price (sqrt_price_to_tick (Real.sqrt lower)) ∧
      position.sqrt_upper_bound_price
        = tick_to_sqrt_price (sqrt_price_to_tick (Real.sqrt upper))) := by
  rw [position_new_token0_run owner x lower upper sqrt_price hlu]
  constructor
  · by_cases hx : ((x : ℕ) : ℝ) > 0
    · by_cases hp : sqrt_price ≤ tick_to_sqrt_price (sqrt_price_to_tick (Real.sqrt upper))
      · rw [if_neg (not_not_intro hx), if_neg (not_not_intro hp)]
        have hx0 : 0 < x := by exact_mod_cast hx
        simp [Except.isOk, Except.toBool, hx0, hp]
      · rw [if_neg (not_not_intro hx), if_pos hp]
        simp [Except.isOk, Except.toBool, hp]
    · rw [if_pos hx]
      have hx0 : ¬(0 < x) := by
        intro h0
        exact hx (by exact_mod_cast h0)
      simp [Except.isOk, Except.toBool, hx0]
  · intro position hpos
    by_cases hx : ((x : ℕ) : ℝ) > 0
    · by_cases hp : sqrt_price ≤ tick_to_sqrt_price (sqrt_price_to_tick (Real.sqrt upper))
      · rw [if_neg (not_not_intro hx), if_neg (not_not_intro hp),
          Except.ok.injEq] at hpos
        subst hpos
        refine ⟨?_, rfl, rfl, rfl, rfl⟩
        split <;> rfl
      · rw [if_neg (not_not_intro hx), if_pos hp] at hpos
        exact absurd hpos (by simp)
    · rw [if_pos hx] at hpos
      exact absurd hpos (by simp)

/-- C8 (witness): the constructor specification instantiated at owner "o",
x = 1, range [1, 4], sqrt-price 1. -/
theorem position_new_token0_spec_witness :
    ((Position.new ("o") (some 1) none 1 4 1).isOk = true ↔
      0 < 1 ∧
        (1 : ℝ) ≤ tick_to_sqrt_price (sqrt_price_to_tick (Real.sqrt 4))) ∧
    (∀ position,
      Position.new ("o") (some 1) none 1 4 1 = .ok position →
      (position.liquidity =
        (if tick_to_sqrt_price (sqrt_price_to_tick (Real.sqrt 1)) < (1 : ℝ) ∧
            (1 : ℝ) < tick_to_sqrt_price (sqrt_price_to_tick (Real.sqrt 4)) then
          ((1 : ℕ) : ℝ) * 1 * tick_to_sqrt_price (sqrt_price_to_tick (Real.sqrt 4)) /
            (tick_to_sqrt_price (sqrt_price_to_tick (Real.sqrt 4)) - 1)
        else
          ((1 : ℕ) : ℝ) * tick_to_sqrt_price (sqrt_price_to_tick (Real.sqrt 1)) *
              tick_to_sqrt_price (sqrt_price_to_tick (Real.sqrt 4)) /
            (tick_to_sqrt_price (sqrt_price_to_tick (Real.sqrt 4)) -
              tick_to_sqrt_price (sqrt_price_to_tick (Real.sqrt 1))))) ∧
      position.token0_locked = ((1 : ℕ) : ℝ) ∧
      position.token1_locked = calculate_y position.liquidity 1
        (tick_to_sqrt_price (sqrt_price_to_tick (Real.sqrt 1)))
        (tick_to_sqrt_price (sqrt_price_to_tick (Real.sqrt 4))) ∧
      position.sqrt_lower_bound_price
        = tick_to_sqrt_price (sqrt_price_to_tick (Real.sqrt 1)) ∧
      position.sqrt_upper_bound_price
        = tick_to_sqrt_price (sqrt_price_to_tick (Real.sqrt 4))) :=
  position_new_token0_spec ("o") 1 1 4 1 (by norm_num)

/-! ### Evaluating one loop iteration on the token1/Return branch -/

theorem sqrt_price_to_tick_one : sqrt_price_to_tick 1 = 0 := by
  unfold sqrt_price_to_tick
  rw [Real.logb_one, mul_zero, Int.floor_zero]

theorem sqrt_price_to_tick_BASIS_POINT : sqrt_price_to_tick BASIS_POINT = 2 := by
  unfold sqrt_price_to_tick
  rw [Real.logb_self_eq_one one_lt_BASIS_POINT]
  norm_num

/-- A swap iteration with token1 as the Return token, crossing the tick:
the step consumes the full in-amount and advances tick and price to the next
boundary; fees are attributed at the advanced price. -/
theorem swap_iteration_return_token1_cross (pool : Pool) (token : String)
    (s : SwapCursor) (L : ℝ) (htok : token = pool.token1)
    (hL : pool.calculate_liquidity_within_tick s.sqrt_price = L) (hLne : L ≠ 0)
    (hcross : ¬((tick_to_sqrt_price (s.tick + 1) - s.sqrt_price) * L > s.remaining)) :
    pool.swap_iteration token .Return s
    = .ok { tick := s.tick + 1,
            sqrt_price := tick_to_sqrt_price (s.tick + 1),
            remaining := s.remaining - (tick_to_sqrt_price (s.tick + 1) - s.sqrt_price) * L,
            collected := s.collected +
              |(1 / tick_to_sqrt_price (s.tick + 1) - 1 / s.sqrt_price) * L|,
            collected_fees := pool.collect_fees L (tick_to_sqrt_price (s.tick + 1))
              |(1 / tick_to_sqrt_price (s.tick + 1) - 1 / s.sqrt_price) * L|
              s.collected_fees } := by
  unfold Pool.swap_iteration
  rw [hL, if_neg (by simp [hLne])]
  simp only [Pool.get_amount_out_within_tick, if_pos htok]
  rw [if_neg hcross]

/-- A swap iteration with token1 as the Return token, stopping inside the
tick: the step consumes all of `remaining`, moves the price to
`p + remaining/L` and leaves the tick cursor alone; fees are attributed at
that advanced price. -/
theorem swap_iteration_return_token1_partial (pool : Pool) (token : String)
    (s : SwapCursor) (L : ℝ) (htok : token = pool.token1)
    (hL : pool.calculate_liquidity_within_tick s.sqrt_price = L) (hLne : L ≠ 0)
    (hpart : (tick_to_sqrt_price (s.tick + 1) - s.sqrt_price) * L > s.remaining) :
    pool.swap_iteration token .Return s
    = .ok { tick := s.tick,
            sqrt_price := s.sqrt_price + s.remaining / L,
            remaining := 0,
            collected := s.collected +
              |(1 / (s.sqrt_price + s.remaining / L) - 1 / s.sqrt_price) * L|,
            collected_fees := pool.collect_fees L (s.sqrt_price + s.remaining / L)
              |(1 / (s.sqrt_price + s.remaining / L) - 1 / s.sqrt_price) * L|
              s.collected_fees } := by
  unfold Pool.swap_iteration
  rw [hL, if_neg (by simp [hLne])]
  simp only [Pool.get_amount_out_within_tick, if_pos htok]
  rw [if_pos hpart]

/-- C1 (amended): every iteration of the tick-walk loop attributes the fee of
the step to the positions active at the POST-step cursor price (the price the
step advanced the cursor to), not the pre-step price: each position active at
the post-step price has `(position.L / L) · step_amount · (rewards / 10000)`
added to its owner's entry of `collected_fees`, where `L` is still the tick
liquidity at the pre-step price and `step_amount = s2.collected − s.collected`
is the amount the step produced; positions that become active exactly at a
boundary crossed by the step therefore do share in that step, and positions
deactivated by the step get nothing. -/
theorem collect_fees_attribution_post_step (pool : Pool) (token : String)
    (direction : SwapDirection) (s s2 : SwapCursor)
    (h : pool.swap_iteration token direction s = .ok s2) (owner : String) :
    feeGetD s2.collected_fees owner
    = feeGetD s.collected_fees owner +
      ((pool.positions.filter (fun position =>
          position.is_active_at s2.sqrt_price && position.owner_id == owner)).map
        (fun position =>
          position.liquidity / pool.calculate_liquidity_within_tick s.sqrt_price *
            (s2.collected - s.collected) * ((pool.rewards : ℝ) / 10000))).sum := by
  simp only [Pool.swap_iteration] at h
  by_cases hc : pool.calculate_liquidity_within_tick s.sqrt_price = 0 ∧
      pool.check_available_liquidity s.sqrt_price token direction = false
  · rw [if_pos hc] at h
    exact absurd h (by simp)
  · rw [if_neg hc, Except.ok.injEq] at h
    subst h
    rw [collect_fees_getD]
    simp only [add_sub_cancel_left]

/-- A position that is not active at sqrt-price 1 (its range is [1/4, 1/2]). -/
def attr_example_position : Position :=
  { owner_id := ("w"), liquidity := 7, token0_locked := 0, token1_locked := 0,
    tick_lower_bound_price := 0, tick_upper_bound_price := 0,
    sqrt_lower_bound_price := 1 / 4, sqrt_upper_bound_price := 1 / 2,
    is_active := false, last_update := 0, rewards_for_time := 0,
    fees_earned_token0 := 0, fees_earned_token1 := 0 }

/-- A pool holding only `attr_example_position`. -/
def attr_example_pool : Pool :=
  { token0 := ("t0"), token1 := ("t1"), liquidity := 0, sqrt_price := 1,
    tick := 1, positions := [attr_example_position], protocol_fee := 0,
    rewards := 0 }

/-- The loop cursor at tick 1, price 1, one unit remaining. -/
def attr_example_cursor : SwapCursor :=
  { tick := 1, sqrt_price := 1, remaining := 1, collected := 0, collected_fees := [] }

/-- The cursor after one Return/token0 iteration on `attr_example_pool`: the
dry tick is crossed downward with zero amounts. -/
def attr_example_cursor2 : SwapCursor :=
  { tick := 0, sqrt_price := 1, remaining := 1, collected := 0, collected_fees := [] }

theorem attr_example_position_inactive_one :
    attr_example_position.is_active_at 1 = false := by
  rw [is_active_at_eq_false_iff]
  intro hcontra
  have h2 := hcontra.2
  norm_num [attr_example_position] at h2

theorem attr_example_iteration :
    attr_example_pool.swap_iteration ("t0") .Return attr_example_cursor
      = .ok attr_example_cursor2 := by
  have hL : attr_example_pool.calculate_liquidity_within_tick
      attr_example_cursor.sqrt_price = 0 := by
    simp [Pool.calculate_liquidity_within_tick, attr_example_pool,
      attr_example_cursor, attr_example_position_inactive_one]
  have hchk : attr_example_pool.check_available_liquidity
      attr_example_cursor.sqrt_price ("t0") .Return = true := by
    simp only [Pool.check_available_liquidity, attr_example_pool, attr_example_cursor,
      List.any_cons, List.any_nil]
    rw [if_pos (by norm_num)]
    simp [attr_example_position]
    norm_num
  unfold Pool.swap_iteration
  rw [hL, hchk]
  rw [if_neg (by simp)]
  simp only [Pool.get_amount_out_within_tick]
  rw [if_neg (by simp [attr_example_pool])]
  rw [if_neg (by
    simp only [attr_example_cursor]
    norm_num)]
  simp only [attr_example_cursor, attr_example_cursor2]
  norm_num [tick_to_sqrt_price_zero]
  simp [Pool.collect_fees, attr_example_pool, attr_example_position_inactive_one]

/-- C1 (witness): the post-step attribution equation instantiated on a
concrete iteration. -/
theorem collect_fees_attribution_post_step_witness :
    feeGetD attr_example_cursor2.collected_fees ("w")
    = feeGetD attr_example_cursor.collected_fees ("w") +
      ((attr_example_pool.positions.filter (fun position =>
          position.is_active_at attr_example_cursor2.sqrt_price &&
            position.owner_id == ("w"))).map
        (fun position =>
          position.liquidity /
              attr_example_pool.calculate_liquidity_within_tick
                attr_example_cursor.sqrt_price *
            (attr_example_cursor2.collected - attr_example_cursor.collected) *
            ((attr_example_pool.rewards : ℝ) / 10000))).sum :=
  collect_fees_attribution_post_step attr_example_pool ("t0") .Return
    attr_example_cursor attr_example_cursor2 attr_example_iteration ("w")

theorem one_add_small_lt_sqrt_BASIS_POINT :
    (1 : ℝ) + 1 / 1000000 < Real.sqrt BASIS_POINT := by
  rw [Real.lt_sqrt (by norm_num)]
  unfold BASIS_POINT
  norm_num

/-- A position of bob whose range is the ticks [-2, 0]: active at sqrt-price
1 (the upper bound), inactive at any higher price. -/
def fee_example_position : Position :=
  { owner_id := ("bob"), liquidity := 1000000, token0_locked := 0, token1_locked := 0,
    tick_lower_bound_price := -2, tick_upper_bound_price := 0,
    sqrt_lower_bound_price := tick_to_sqrt_price (-2),
    sqrt_upper_bound_price := tick_to_sqrt_price 0,
    is_active := true, last_update := 0, rewards_for_time := 0,
    fees_earned_token0 := 0, fees_earned_token1 := 0 }

/-- A pool at sqrt-price 1 (tick 0) holding only bob's position, with the full
rewards rate (10000 basis points). -/
def fee_example_pool : Pool :=
  { token0 := ("t0"), token1 := ("t1"), liquidity := 1000000, sqrt_price := 1,
    tick := 0, positions := [fee_example_position], protocol_fee := 0,
    rewards := 10000 }

theorem fee_example_position_active_one :
    fee_example_position.is_active_at 1 = true := by
  rw [is_active_at_iff]
  constructor
  · show fee_example_position.sqrt_lower_bound_price ≤ 1
    rw [show fee_example_position.sqrt_lower_bound_price
          = tick_to_sqrt_price (-2) from rfl]
    exact tick_to_sqrt_price_le_one_of_nonpos (-2) (by norm_num)
  · show fee_example_position.sqrt_upper_bound_price ≥ 1
    rw [show fee_example_position.sqrt_upper_bound_price
          = tick_to_sqrt_price 0 from rfl, tick_to_sqrt_price_zero]

theorem fee_example_position_inactive_post :
    fee_example_position.is_active_at (1 + 1 / 1000000) = false := by
  rw [is_active_at_eq_false_iff]
  intro hcontra
  have h2 := hcontra.2
  rw [show fee_example_position.sqrt_upper_bound_price
        = tick_to_sqrt_price 0 from rfl, tick_to_sqrt_price_zero] at h2
  norm_num at h2

theorem fee_example_liquidity_one :
    fee_example_pool.calculate_liquidity_within_tick 1 = 1000000 := by
  simp only [Pool.calculate_liquidity_within_tick, fee_example_pool,
    List.foldl_cons, List.foldl_nil, fee_example_position_active_one, if_true]
  show (0 : ℝ) + fee_example_position.liquidity = 1000000
  rw [show fee_example_position.liquidity = 1000000 from rfl]
  norm_num

theorem fee_example_liquidity_post :
    fee_example_pool.calculate_liquidity_within_tick (1 + 1 / 1000000) = 0 := by
  simp only [Pool.calculate_liquidity_within_tick, fee_example_pool,
    List.foldl_cons, List.foldl_nil, fee_example_position_inactive_post]
  simp

/-- The whole quote on `fee_example_pool`: one partial step from price 1 up to
1 + 10⁻⁶; bob's position, active when the step started, is inactive at the
post-step price, so the fee map comes back empty. -/
theorem fee_example_run :
    fee_example_pool.get_swap_result ("t1") 1 .Return 1
    = .ok { amount := 1000000 / 1000001,
            new_liquidity := 0,
            new_sqrt_price := 1 + 1 / 1000000,
            collected_fees := [] } := by
  have hpart : (tick_to_sqrt_price ((0 : ℤ) + 1) - (1 : ℝ)) * 1000000 > 1 := by
    rw [show ((0 : ℤ) + 1) = (1 : ℤ) from by norm_num, tick_to_sqrt_price_one]
    nlinarith [one_add_small_lt_sqrt_BASIS_POINT]
  have hstep : fee_example_pool.swap_iteration ("t1") .Return ⟨0, 1, 1, 0, []⟩
      = .ok ⟨0, 1 + 1 / 1000000, 0,
             0 + |(1 / (1 + 1 / 1000000) - 1 / 1) * 1000000|,
             fee_example_pool.collect_fees 1000000 (1 + 1 / 1000000)
               |(1 / (1 + 1 / 1000000) - 1 / 1) * 1000000| []⟩ := by
    have h := swap_iteration_return_token1_partial fee_example_pool ("t1")
      ⟨0, 1, 1, 0, []⟩ 1000000 rfl fee_example_liquidity_one (by norm_num) hpart
    rw [h]
  have hloop : fee_example_pool.swap_loop ("t1") .Return 1 ⟨0, 1, 1, 0, []⟩
      = .ok ⟨0, 1 + 1 / 1000000, 0,
             0 + |(1 / (1 + 1 / 1000000) - 1 / 1) * 1000000|,
             fee_example_pool.collect_fees 1000000 (1 + 1 / 1000000)
               |(1 / (1 + 1 / 1000000) - 1 / 1) * 1000000| []⟩ := by
    rw [swap_loop_succ_of_pos _ _ _ _ _ (by norm_num), hstep]
    exact swap_loop_of_nonpos _ _ _ _ _ (by norm_num)
  have habs : |(1 / (1 + 1 / 1000000 : ℝ) - 1 / 1) * 1000000| = 1000000 / 1000001 := by
    rw [show (1 / (1 + 1 / 1000000 : ℝ) - 1 / 1) * 1000000
          = -(1000000 / 1000001) from by norm_num, abs_neg, abs_of_pos (by norm_num)]
  simp only [Pool.get_swap_result]
  rw [show fee_example_pool.tick = (0 : ℤ) from rfl,
    show fee_example_pool.sqrt_price = (1 : ℝ) from rfl, Nat.cast_one, hloop]
  simp only [Except.ok.injEq, SwapResult.mk.injEq]
  refine ⟨?_, ?_, trivial, ?_⟩
  · rw [habs]; norm_num
  · exact fee_example_liquidity_post
  · rw [habs]
    simp only [Pool.collect_fees, fee_example_pool, List.foldl_cons, List.foldl_nil,
      fee_example_position_inactive_post]
    simp

/-- C1 (counterexample): on `fee_example_pool` (rewards = 10000 bp, one
position owned by bob), `get_swap_result("t1", 1, Return)` takes one step
from the pre-step cursor price 1, at which bob's position is active with the
full tick liquidity, and the step amount is 1000000/1000001 ≠ 0 — yet bob's
entry of `collected_fees` is 0 (the map is empty), because the code
attributes fees at the post-step price, not the pre-step price the claim
names. -/
theorem fee_attribution_pre_step_counterexample :
    fee_example_position.is_active_at fee_example_pool.sqrt_price = true ∧
    (fee_example_pool.get_swap_result ("t1") 1 .Return 1).map
      (fun r => feeGetD r.collected_fees ("bob")) = .ok 0 ∧
    (fee_example_pool.get_swap_result ("t1") 1 .Return 1).map
      (fun r => r.amount) = .ok (1000000 / 1000001) ∧
    fee_example_position.liquidity /
        fee_example_pool.calculate_liquidity_within_tick fee_example_pool.sqrt_price *
        (1000000 / 1000001) * ((fee_example_pool.rewards : ℝ) / 10000) ≠ 0 := by
  refine ⟨fee_example_position_active_one, ?_, ?_, ?_⟩
  · rw [fee_example_run]
    simp [Except.map, feeGetD, feeGet]
  · rw [fee_example_run]
    rfl
  · rw [show fee_example_pool.calculate_liquidity_within_tick fee_example_pool.sqrt_price
          = 1000000 from fee_example_liquidity_one,
      show fee_example_position.liquidity = (1000000 : ℝ) from rfl,
      show ((fee_example_pool.rewards : ℕ) : ℝ) = 10000 from by norm_num [fee_example_pool]]
    norm_num

/-- C3 (amended): `tick = sqrt_price_to_tick(sqrt_price)` holds right after
`Pool::new`, and `refresh_liquidity` / `refresh_positions` touch neither
`tick` nor `sqrt_price`, so they preserve the equation whenever it already
holds — but they do not re-establish it, and `apply_swap_result` can break it
(see the counterexample). -/
theorem tick_consistency_new_and_refresh :
    (∀ (token0 token1 : String) (price : ℝ) (protocol_fee rewards : ℕ),
      (Pool.new token0 token1 price protocol_fee rewards).tick
        = sqrt_price_to_tick (Pool.new token0 token1 price protocol_fee rewards).sqrt_price) ∧
    (∀ (pool : Pool) (now : ℕ),
      (pool.refresh_liquidity.tick = pool.tick ∧
       pool.refresh_liquidity.sqrt_price = pool.sqrt_price) ∧
      ((pool.refresh_positions now).tick = pool.tick ∧
       (pool.refresh_positions now).sqrt_price = pool.sqrt_price)) ∧
    (∀ (pool : Pool) (now : ℕ),
      pool.tick = sqrt_price_to_tick pool.sqrt_price →
      pool.refresh_liquidity.tick
        = sqrt_price_to_tick pool.refresh_liquidity.sqrt_price ∧
      (pool.refresh_positions now).tick
        = sqrt_price_to_tick (pool.refresh_positions now).sqrt_price) :=
  ⟨fun _ _ _ _ _ => rfl,
   fun _ _ => ⟨⟨rfl, rfl⟩, rfl, rfl⟩,
   fun _ _ h => ⟨h, h⟩⟩

/-- A position of alice spanning the ticks [-20, 20] with liquidity 10000. -/
def tick_example_position : Position :=
  { owner_id := ("alice"), liquidity := 10000, token0_locked := 0, token1_locked := 0,
    tick_lower_bound_price := -20, tick_upper_bound_price := 20,
    sqrt_lower_bound_price := tick_to_sqrt_price (-20),
    sqrt_upper_bound_price := tick_to_sqrt_price 20,
    is_active := true, last_update := 0, rewards_for_time := 0,
    fees_earned_token0 := 0, fees_earned_token1 := 0 }

/-- A pool built by the public constructor at price 1 (so tick 0), with
alice's position opened into it. -/
def tick_example_pool : Pool :=
  (Pool.new ("t0") ("t1") 1 0 0).open_position tick_example_position

theorem tick_example_pool_tick : tick_example_pool.tick = 0 := by
  show sqrt_price_to_tick (Real.sqrt 1) = 0
  rw [Real.sqrt_one, sqrt_price_to_tick_one]

theorem tick_example_pool_sqrt_price : tick_example_pool.sqrt_price = 1 := by
  show Real.sqrt 1 = 1
  exact Real.sqrt_one

theorem tick_example_position_active (p : ℝ)
    (hlo : tick_to_sqrt_price (-20) ≤ p) (hhi : p ≤ tick_to_sqrt_price 20) :
    tick_example_position.is_active_at p = true := by
  rw [is_active_at_iff]
  exact ⟨hlo, hhi⟩

theorem tick_example_liquidity_at (p : ℝ)
    (hact : tick_example_position.is_active_at p = true) :
    tick_example_pool.calculate_liquidity_within_tick p = 10000 := by
  simp only [Pool.calculate_liquidity_within_tick,
    show tick_example_pool.positions = [tick_example_position] from rfl,
    List.foldl_cons, List.foldl_nil, hact, if_true]
  show (0 : ℝ) + tick_example_position.liquidity = 10000
  rw [show tick_example_position.liquidity = (10000 : ℝ) from rfl]
  norm_num

theorem tick_example_active_one : tick_example_position.is_active_at 1 = true :=
  tick_example_position_active 1
    (tick_to_sqrt_price_le_one_of_nonpos (-20) (by norm_num))
    (one_le_tick_to_sqrt_price_of_nonneg 20 (by norm_num))

theorem tick_example_active_sqrt :
    tick_example_position.is_active_at (tick_to_sqrt_price 1) = true := by
  apply tick_example_position_active
  · exact le_trans (tick_to_sqrt_price_le_one_of_nonpos (-20) (by norm_num))
      (by rw [tick_to_sqrt_price_one]; exact one_le_sqrt_BASIS_POINT)
  · refine le_trans ?_ (tick_to_sqrt_price_le_tick_to_sqrt_price 2 20 (by norm_num))
    rw [tick_to_sqrt_price_one, tick_to_sqrt_price_two]
    exact le_of_lt sqrt_BASIS_POINT_lt_BASIS_POINT

theorem tick_example_active_two :
    tick_example_position.is_active_at (tick_to_sqrt_price 2) = true := by
  apply tick_example_position_active
  · exact le_trans (tick_to_sqrt_price_le_one_of_nonpos (-20) (by norm_num))
      (one_le_tick_to_sqrt_price_of_nonneg 2 (by norm_num))
  · exact tick_to_sqrt_price_le_tick_to_sqrt_price 2 20 (by norm_num)

/-- The cursor after the first full crossing: tick 1, price at the tick-1
boundary. -/
def tick_example_cursor1 : SwapCursor :=
  { tick := 1, sqrt_price := tick_to_sqrt_price 1,
    remaining := 1 - (tick_to_sqrt_price 1 - 1) * 10000,
    collected := 0 + |(1 / tick_to_sqrt_price 1 - 1 / 1) * 10000|,
    collected_fees := tick_example_pool.collect_fees 10000 (tick_to_sqrt_price 1)
      (|(1 / tick_to_sqrt_price 1 - 1 / 1) * 10000|) [] }

/-- The cursor after the second full crossing: tick 2, price at the tick-2
boundary (which is BASIS_POINT itself), remaining exactly 0. -/
def tick_example_cursor2 : SwapCursor :=
  { tick := 2, sqrt_price := tick_to_sqrt_price 2,
    remaining := (1 - (tick_to_sqrt_price 1 - 1) * 10000) -
      (tick_to_sqrt_price 2 - tick_to_sqrt_price 1) * 10000,
    collected := (0 + |(1 / tick_to_sqrt_price 1 - 1 / 1) * 10000|) +
      |(1 / tick_to_sqrt_price 2 - 1 / tick_to_sqrt_price 1) * 10000|,
    collected_fees := tick_example_pool.collect_fees 10000 (tick_to_sqrt_price 2)
      (|(1 / tick_to_sqrt_price 2 - 1 / tick_to_sqrt_price 1) * 10000|)
      (tick_example_pool.collect_fees 10000 (tick_to_sqrt_price 1)
        (|(1 / tick_to_sqrt_price 1 - 1 / 1) * 10000|) []) }

theorem tick_example_step1 :
    tick_example_pool.swap_iteration ("t1") .Return ⟨0, 1, 1, 0, []⟩
      = .ok tick_example_cursor1 := by
  have hcross : ¬((tick_to_sqrt_price ((0 : ℤ) + 1) - (1 : ℝ)) * 10000 > 1) := by
    rw [show ((0 : ℤ) + 1) = (1 : ℤ) from rfl, tick_to_sqrt_price_one]
    push_neg
    have hs := sqrt_BASIS_POINT_lt_BASIS_POINT
    have hB : (BASIS_POINT : ℝ) = 1.0001 := rfl
    nlinarith [hs, hB]
  rw [swap_iteration_return_token1_cross tick_example_pool ("t1") ⟨0, 1, 1, 0, []⟩
    10000 rfl (tick_example_liquidity_at 1 tick_example_active_one) (by norm_num) hcross]
  rfl

theorem tick_example_step2 :
    tick_example_pool.swap_iteration ("t1") .Return tick_example_cursor1
      = .ok tick_example_cursor2 := by
  have hL : tick_example_pool.calculate_liquidity_within_tick
      tick_example_cursor1.sqrt_price = 10000 :=
    tick_example_liquidity_at _ tick_example_active_sqrt
  have hcross : ¬((tick_to_sqrt_price (tick_example_cursor1.tick + 1) -
      tick_example_cursor1.sqrt_price) * 10000 > tick_example_cursor1.remaining) := by
    rw [show tick_example_cursor1.tick + 1 = (2 : ℤ) from rfl,
      show tick_example_cursor1.sqrt_price = tick_to_sqrt_price 1 from rfl,
      show tick_example_cursor1.remaining
        = 1 - (tick_to_sqrt_price 1 - 1) * 10000 from rfl,
      tick_to_sqrt_price_one, tick_to_sqrt_price_two]
    push_neg
    have hB : (BASIS_POINT : ℝ) = 1.0001 := rfl
    nlinarith [hB]
  rw [swap_iteration_return_token1_cross tick_example_pool ("t1") tick_example_cursor1
    10000 rfl hL (by norm_num) hcross]
  rfl

theorem tick_example_loop :
    tick_example_pool.swap_loop ("t1") .Return 2 ⟨0, 1, 1, 0, []⟩
      = .ok tick_example_cursor2 := by
  have hrem1 : tick_example_cursor1.remaining > 0 := by
    rw [show tick_example_cursor1.remaining
        = 1 - (tick_to_sqrt_price 1 - 1) * 10000 from rfl, tick_to_sqrt_price_one]
    have hs := sqrt_BASIS_POINT_lt_BASIS_POINT
    have hB : (BASIS_POINT : ℝ) = 1.0001 := rfl
    nlinarith [hs, hB]
  have hrem2 : ¬(tick_example_cursor2.remaining > 0) := by
    rw [show tick_example_cursor2.remaining
        = (1 - (tick_to_sqrt_price 1 - 1) * 10000) -
          (tick_to_sqrt_price 2 - tick_to_sqrt_price 1) * 10000 from rfl,
      tick_to_sqrt_price_one, tick_to_sqrt_price_two]
    push_neg
    have hB : (BASIS_POINT : ℝ) = 1.0001 := rfl
    nlinarith [hB]
  rw [swap_loop_succ_of_pos _ _ _ _ _ (by norm_num), tick_example_step1]
  show tick_example_pool.swap_loop ("t1") .Return 1 tick_example_cursor1
    = .ok tick_example_cursor2
  rw [swap_loop_succ_of_pos _ _ _ _ _ hrem1, tick_example_step2]
  show tick_example_pool.swap_loop ("t1") .Return 0 tick_example_cursor2
    = .ok tick_example_cursor2
  exact swap_loop_of_nonpos _ _ _ _ _ hrem2

theorem tick_example_run :
    tick_example_pool.get_swap_result ("t1") 1 .Return 2
    = .ok { amount := tick_example_cursor2.collected,
            new_liquidity := tick_example_pool.calculate_liquidity_within_tick
              tick_example_cursor2.sqrt_price,
            new_sqrt_price := tick_example_cursor2.sqrt_price,
            collected_fees := tick_example_cursor2.collected_fees } := by
  simp only [Pool.get_swap_result]
  rw [tick_example_pool_tick, tick_example_pool_sqrt_price, Nat.cast_one,
    tick_example_loop]

/-- C3 (counterexample): the reachable sequence new → open_position →
get_swap_result → apply_swap_result → refresh_liquidity leaves the pool with
tick 0 but sqrt_price at the tick-2 boundary, so
`tick = sqrt_price_to_tick(sqrt_price)` fails immediately after a
refresh_liquidity call (the swap crossed two tick boundaries but
apply_swap_result never writes tick). -/
theorem tick_consistency_counterexample :
    (match tick_example_pool.get_swap_result ("t1") 1 .Return 2 with
     | .ok r =>
       ((tick_example_pool.apply_swap_result r).refresh_liquidity).tick = 0 ∧
       sqrt_price_to_tick
           (((tick_example_pool.apply_swap_result r).refresh_liquidity).sqrt_price) = 2
     | .error _ => False) ∧ (0 : ℤ) ≠ 2 := by
  have key : ∀ r : SwapResult,
      tick_example_pool.get_swap_result ("t1") 1 .Return 2 = .ok r →
      ((tick_example_pool.apply_swap_result r).refresh_liquidity).tick = 0 ∧
      sqrt_price_to_tick
          (((tick_example_pool.apply_swap_result r).refresh_liquidity).sqrt_price) = 2 := by
    intro r hr
    have hY : r.new_sqrt_price = tick_to_sqrt_price 2 := by
      rw [tick_example_run] at hr
      injection hr with h
      rw [← h]
      rfl
    constructor
    · rw [show ((tick_example_pool.apply_swap_result r).refresh_liquidity).tick
          = tick_example_pool.tick from rfl, tick_example_pool_tick]
    · rw [show ((tick_example_pool.apply_swap_result r).refresh_liquidity).sqrt_price
          = r.new_sqrt_price from rfl, hY, tick_to_sqrt_price_two,
        sqrt_price_to_tick_BASIS_POINT]
  refine ⟨?_, by decide⟩
  rw [tick_example_run]
  exact key _ tick_example_run

end

end CrispExchange
